import Mathlib

/-!
Verification development for the Planner data-processing repository
(`pipeline.py`, `parser.py`, `test_validation.py`, `debug_buckets.py`).

The Python code is shallowly embedded: every pandas DataFrame becomes an
association list of named columns of `Cell` values, every pandas Timestamp
becomes a day count (civil days since 1970-01-01) plus seconds-of-day, and
every string operation is implemented over `List Char` so that all
definitions are executable and kernel-reducible.

Library behaviour that the source calls into is modelled explicitly and is
marked as such in the doc comment of the corresponding definition
(Python `str.lower`/`str.strip`, `pandas.to_datetime`, float threshold
comparisons, `pandas.Timestamp.now()`).
-/

set_option maxRecDepth 10000
set_option maxHeartbeats 1600000

/-! ## Python string primitives (models of builtins used by the source) -/

/-- Model of the whitespace class stripped by Python `str.strip()`, restricted
to the ASCII whitespace characters that can occur in this data. -/
def isPySpace (c : Char) : Bool := c = ' ' || c = '\t' || c = '\n' || c = '\r'

/-- `str.strip()` on the character list: drop leading and trailing whitespace. -/
def stripChars (l : List Char) : List Char :=
  List.rdropWhile isPySpace (List.dropWhile isPySpace l)

/-- Model of Python `str.strip()`. -/
def pyStrip (s : String) : String := String.mk (stripChars s.data)

/-- Model of Python `str.lower()`, restricted to ASCII letters and the
accented uppercase letters of the Portuguese labels processed by this
repository; all other characters are left unchanged. -/
def pyLowerTable : List (Char × Char) :=
  [('A','a'),('B','b'),('C','c'),('D','d'),('E','e'),('F','f'),('G','g'),
   ('H','h'),('I','i'),('J','j'),('K','k'),('L','l'),('M','m'),('N','n'),
   ('O','o'),('P','p'),('Q','q'),('R','r'),('S','s'),('T','t'),('U','u'),
   ('V','v'),('W','w'),('X','x'),('Y','y'),('Z','z'),
   ('Ç','ç'),('Ã','ã'),('Í','í'),('Ú','ú'),('Õ','õ'),('Ê','ê'),('É','é'),
   ('Á','á'),('Ó','ó')]

/-- Lower-case a single character (model of Python `str.lower`, per char). -/
def pyLowerChar (c : Char) : Char :=
  match pyLowerTable.find? (fun p => p.1 == c) with
  | some p => p.2
  | none => c

/-- Model of Python `str.lower()` (character-wise). -/
def pyLower (s : String) : String := String.mk (s.data.map pyLowerChar)

/-- One single-character `str.replace(a, b)` step, per character. -/
def replChar (a b c : Char) : Char := if c = a then b else c

/-- Python `str.replace(a, b)` for single-character `a`, `b`. -/
def strReplaceChar (a b : Char) (s : String) : String :=
  String.mk (s.data.map (replChar a b))

/-! ## Label normalization (`pipeline.py` lines 181-207, `debug_buckets.py`) -/

/-- The chain of nine accent `str.replace` calls of `pipeline.py`
lines 184-192 (and identically lines 198-206): `ç→c`, `ã→a`, `í→i`, `ú→u`,
`õ→o`, `ê→e`, `é→e`, `á→a`, `ó→o`, applied in source order (innermost
first). -/
def applyAccentReplacements (s : String) : String :=
  strReplaceChar 'ó' 'o' (strReplaceChar 'á' 'a' (strReplaceChar 'é' 'e'
    (strReplaceChar 'ê' 'e' (strReplaceChar 'õ' 'o' (strReplaceChar 'ú' 'u'
      (strReplaceChar 'í' 'i' (strReplaceChar 'ã' 'a'
        (strReplaceChar 'ç' 'c' s))))))))

/-- Normalization applied to a record's raw bucket label by
`validate_dates_by_bucket` (`pipeline.py` lines 181-192):
`.str.strip().str.lower()` followed by the nine accent replacements. -/
def normalize_bucket_value (s : String) : String :=
  applyAccentReplacements (pyLower (pyStrip s))

/-- Normalization applied to each allow-list entry by
`validate_dates_by_bucket` (`pipeline.py` lines 195-207):
`bucket.lower()` followed by the same nine accent replacements
(note: no `strip`). -/
def normalize_allowed_bucket (s : String) : String :=
  applyAccentReplacements (pyLower s)

/-- The chain of only five accent replacements used on record values by
`debug_buckets.py` lines 51-56: `ç→c`, `ã→a`, `í→i`, `ú→u`, `õ→o`
(the `ê`, `é`, `á`, `ó` replacements are absent there). -/
def applyAccentReplacements5 (s : String) : String :=
  strReplaceChar 'õ' 'o' (strReplaceChar 'ú' 'u' (strReplaceChar 'í' 'i'
    (strReplaceChar 'ã' 'a' (strReplaceChar 'ç' 'c' s))))

/-- Normalization applied to a record value by `debug_buckets.py`
lines 51-56: `str(value).strip().lower()` then the five replacements. -/
def debug_normalize_value (s : String) : String :=
  applyAccentReplacements5 (pyLower (pyStrip s))

/-- Normalization applied to each allow-list entry by `debug_buckets.py`
lines 64-75: `bucket.lower()` then the same nine replacements as the
pipeline. -/
def debug_normalize_allowed (s : String) : String :=
  applyAccentReplacements (pyLower s)

/-- The per-character composite of `normalize_allowed_bucket`
(lower-casing followed by the nine accent replacements); proof-side
companion of the string-level definitions. -/
def normChar (c : Char) : Char :=
  replChar 'ó' 'o' (replChar 'á' 'a' (replChar 'é' 'e' (replChar 'ê' 'e'
    (replChar 'õ' 'o' (replChar 'ú' 'u' (replChar 'í' 'i' (replChar 'ã' 'a'
      (replChar 'ç' 'c' (pyLowerChar c)))))))))

/-! ## Static configuration (`pipeline.py` `PlannerConfig`) -/

/-- `PlannerConfig.COLUMN_MAPPING` (`pipeline.py` lines 23-35). -/
def COLUMN_MAPPING : List (String × String) :=
  [("Identificação da tarefa", "ID da Tarefa"),
   ("Nome da tarefa", "Título"),
   ("Nome do Bucket", "Bucket"),
   ("Progresso", "Progresso (%)"),
   ("Prioridade", "Prioridade"),
   ("Atribuído a", "Atribuído"),
   ("Criado por", "Criado por"),
   ("Criado em", "Data de criação"),
   ("Data de início", "Data de início"),
   ("Data de conclusão", "Data de entrega"),
   ("Concluído em", "Data de conclusão")]

/-- `PlannerConfig.INACTIVE_BUCKETS` (`pipeline.py` line 38). -/
def INACTIVE_BUCKETS : List String := ["backlog", "a fazer"]

/-- `PlannerConfig.ACTIVE_BUCKETS` (`pipeline.py` line 41). -/
def ACTIVE_BUCKETS : List String :=
  ["execução", "aguardando validação", "concluídos", "concluido",
   "concluida", "concluidas"]

/-- `PlannerConfig.DATE_COLUMNS` (`pipeline.py` lines 44-49). -/
def DATE_COLUMNS : List String :=
  ["Data de criação", "Data de início", "Data de entrega",
   "Data de conclusão"]

/-- `PlannerConfig.DEFAULT_ASSIGNEE` (`pipeline.py` line 52). -/
def DEFAULT_ASSIGNEE : String := "Michael Oneil; Artur Almeida"

/-- `PlannerConfig.START_DATE_FILL_DAYS` (`pipeline.py` line 55). -/
def START_DATE_FILL_DAYS : Nat := 20

/-- The normalized allow-list computed by `validate_dates_by_bucket`
(`pipeline.py` lines 195-207). -/
def allowed_buckets_normalized : List String :=
  ACTIVE_BUCKETS.map normalize_allowed_bucket

/-! ## Timestamps (model of `pandas.Timestamp` / `datetime`) -/

/-- Days since 1970-01-01 of the civil date `y-m-d` (proleptic Gregorian);
the standard era-based conversion, valid for the year range this data uses.
All intermediate quantities are nonnegative for years since 1 CE, so the
choice of integer-division convention is immaterial here. -/
def daysFromCivil (y : Int) (m d : Nat) : Int :=
  let y' : Int := if m ≤ 2 then y - 1 else y
  let era : Int := (if 0 ≤ y' then y' else y' - 399) / 400
  let yoe : Int := y' - era * 400
  let mp : Int := ((m : Int) + 9) % 12
  let doy : Int := (153 * mp + 2) / 5 + ((d : Int) - 1)
  let doe : Int := yoe * 365 + yoe / 4 - yoe / 100 + doy
  era * 146097 + doe - 719468

/-- Inverse of `daysFromCivil`: the civil date `(y, m, d)` of a day count. -/
def civilFromDays (z0 : Int) : Int × Nat × Nat :=
  let z : Int := z0 + 719468
  let era : Int := (if 0 ≤ z then z else z - 146096) / 146097
  let doe : Int := z - era * 146097
  let yoe : Int := (doe - doe / 1460 + doe / 36524 - doe / 146096) / 365
  let y : Int := yoe + era * 400
  let doy : Int := doe - (365 * yoe + yoe / 4 - yoe / 100)
  let mp : Int := (5 * doy + 2) / 153
  let d : Int := doy - (153 * mp + 2) / 5 + 1
  let m : Int := if mp < 10 then mp + 3 else mp - 9
  ((if m ≤ 2 then y + 1 else y), m.toNat, d.toNat)

/-- A `pandas.Timestamp`: civil day count since 1970-01-01 plus
seconds within the day. -/
structure Timestamp where
  day : Int
  secs : Nat
deriving DecidableEq, Repr

/-- Build a timestamp from a civil date and a time of day. -/
def mkTs (y : Int) (m d : Nat) (h : Nat := 0) (mi : Nat := 0) (sec : Nat := 0) :
    Timestamp :=
  ⟨daysFromCivil y m d, h * 3600 + mi * 60 + sec⟩

/-- `Timestamp - pandas.Timedelta(days=n)` (`pipeline.py` line 331). -/
def tsSubDays (t : Timestamp) (n : Nat) : Timestamp := ⟨t.day - (n : Int), t.secs⟩

/-- Strict order on timestamps (used by the `>` comparisons of
`pipeline.py` line 342 and `test_validation.py` line 282). -/
def tsLtB (a b : Timestamp) : Bool :=
  a.day < b.day || (a.day == b.day && a.secs < b.secs)

/-- The calendar year of a timestamp (model of the pandas `.dt.year`
accessor used in `test_validation.py` lines 296-297). -/
def tsYear (t : Timestamp) : Int := (civilFromDays t.day).1

/-- Left-pad a numeral to two digits. -/
def pad2 (n : Nat) : String := if n < 10 then "0" ++ toString n else toString n

/-- Model of Python `str(pandas.Timestamp)`: `YYYY-MM-DD HH:MM:SS`.
Only diagnostic columns (`Due_raw`, parse backups) ever hold such strings;
no claim below depends on their exact shape. -/
def tsRepr (t : Timestamp) : String :=
  let c := civilFromDays t.day
  toString c.1 ++ "-" ++ pad2 c.2.1 ++ "-" ++ pad2 c.2.2 ++ " " ++
    pad2 (t.secs / 3600) ++ ":" ++ pad2 (t.secs % 3600 / 60) ++ ":" ++
    pad2 (t.secs % 60)

/-- Leap-year test (proleptic Gregorian). -/
def isLeapYear (y : Int) : Bool := y % 4 == 0 && (y % 100 != 0 || y % 400 == 0)

/-- Number of days in month `m` of year `y`. -/
def daysInMonth (y : Int) (m : Nat) : Nat :=
  if m == 2 then (if isLeapYear y then 29 else 28)
  else if m == 4 || m == 6 || m == 9 || m == 11 then 30
  else 31

/-! ## Cells (one value of one DataFrame column) -/

/-- A single cell of a DataFrame: missing (`NaN`/`NaT`/`None`), a string,
or a parsed date-time. -/
inductive Cell where
  | null : Cell
  | str : String → Cell
  | ts : Timestamp → Cell
deriving DecidableEq, Repr

/-- pandas `isna` on a cell. -/
def Cell.isna : Cell → Bool
  | .null => true
  | _ => false

/-- pandas `notna` on a cell. -/
def Cell.notna (c : Cell) : Bool := !c.isna

/-- Model of Python `str(cell)` / pandas `astype(str)` on one cell:
`NaN` prints as `"nan"`. -/
def cellPyStr : Cell → String
  | .null => "nan"
  | .str s => s
  | .ts t => tsRepr t

/-- The pandas `.str.strip().str.lower()` accessor chain on one cell:
yields `none` (`NaN`) on non-string cells. -/
def cellStripLower : Cell → Option String
  | .str s => some (pyLower (pyStrip s))
  | _ => none

/-! ## Date parsing (`parser.py`) -/

/-- Count the leading decimal digits of a character list, returning the
remainder. -/
def takeDigits : List Char → Nat × List Char
  | [] => (0, [])
  | c :: t =>
    if c.isDigit then
      let r := takeDigits t
      (r.1 + 1, r.2)
    else (0, c :: t)

/-- Regex `\d{1,2}` followed by the literal non-digit `c` (greedy with
backtracking, which for a non-digit literal means: two digits then `c`,
or one digit then `c`). Returns the rest of the input on success. -/
def matchD12Then (c : Char) : List Char → Option (List Char)
  | [] => none
  | a :: r =>
    if a.isDigit then
      match r with
      | [] => none
      | b :: r2 =>
        if b.isDigit then
          match r2 with
          | [] => none
          | e :: r3 => if e = c then some r3 else none
        else if b = c then some r2 else none
    else none

/-- Regex `\d{4}` followed by a character satisfying `q` (exactly four
digits, then the guard character). Returns the rest after the guard. -/
def matchD4Then (q : Char → Bool) : List Char → Option (List Char)
  | a :: b :: c :: d :: e :: r =>
    if a.isDigit && b.isDigit && c.isDigit && d.isDigit && q e then some r
    else none
  | _ => none

/-- Regex `\d{4}` at the end of an unanchored pattern: at least four
leading digits. -/
def hasFourDigits (l : List Char) : Bool :=
  match l with
  | a :: b :: c :: d :: _ => a.isDigit && b.isDigit && c.isDigit && d.isDigit
  | _ => false

/-- Regex `\d{1,2}` at the end of an unanchored pattern: at least one
leading digit. -/
def hasOneDigit (l : List Char) : Bool :=
  match l with
  | c :: _ => c.isDigit
  | _ => false

/-- `DATE_PATTERNS['dd/mm/yyyy']`: `^\d{1,2}/\d{1,2}/\d{4}$`
(`parser.py` line 33). -/
def patDdMmYyyy (l : List Char) : Bool :=
  match matchD12Then '/' l with
  | none => false
  | some r1 =>
    match matchD12Then '/' r1 with
    | none => false
    | some r2 => decide (r2.length = 4) && r2.all Char.isDigit

/-- `DATE_PATTERNS['dd/mm/yyyy_time']`:
`^\d{1,2}/\d{1,2}/\d{4}\s\d{1,2}:\d{1,2}` (`parser.py` line 34). -/
def patDdMmYyyyTime (l : List Char) : Bool :=
  match matchD12Then '/' l with
  | none => false
  | some r1 =>
    match matchD12Then '/' r1 with
    | none => false
    | some r2 =>
      match matchD4Then isPySpace r2 with
      | none => false
      | some r3 =>
        match matchD12Then ':' r3 with
        | none => false
        | some r4 => hasOneDigit r4

/-- `DATE_PATTERNS['yyyy-mm-dd']`: `^\d{4}-\d{1,2}-\d{1,2}`
(`parser.py` line 35). -/
def patYyyyMmDd (l : List Char) : Bool :=
  match matchD4Then (· = '-') l with
  | none => false
  | some r1 =>
    match matchD12Then '-' r1 with
    | none => false
    | some r2 => hasOneDigit r2

/-- `DATE_PATTERNS['dd-mm-yyyy']`: `^\d{1,2}-\d{1,2}-\d{4}`
(`parser.py` line 36). -/
def patDdMmYyyyDash (l : List Char) : Bool :=
  match matchD12Then '-' l with
  | none => false
  | some r1 =>
    match matchD12Then '-' r1 with
    | none => false
    | some r2 => hasFourDigits r2

/-- `DATE_PATTERNS['dd.mm.yyyy']`: `^\d{1,2}\.\d{1,2}\.\d{4}`
(`parser.py` line 37). -/
def patDdMmYyyyDot (l : List Char) : Bool :=
  match matchD12Then '.' l with
  | none => false
  | some r1 =>
    match matchD12Then '.' r1 with
    | none => false
    | some r2 => hasFourDigits r2

/-- `validate_date_string` (`parser.py` lines 41-61): strip, reject empty,
then try the five recognized regex patterns. -/
def validate_date_string (s : String) : Bool :=
  let t := stripChars s.data
  if t.isEmpty then false
  else
    patDdMmYyyy t || patDdMmYyyyTime t || patYyyyMmDd t ||
      patDdMmYyyyDash t || patDdMmYyyyDot t

/-- Value of a nonempty all-digit character list. -/
def digitsToNat (l : List Char) : Option Nat :=
  if l.isEmpty then none
  else if l.all Char.isDigit then
    some (l.foldl (fun acc c => acc * 10 + (c.toNat - 48)) 0)
  else none

/-- Split a character list on a separator character. -/
def splitOnChar (sep : Char) (l : List Char) : List (List Char) :=
  match l with
  | [] => [[]]
  | c :: t =>
    let r := splitOnChar sep t
    if c = sep then [] :: r
    else
      match r with
      | [] => [[c]]
      | h :: t' => (c :: h) :: t'

/-- Resolve the three numeric date fields to `(year, month, day)`.
A four-digit first field is taken as year-first; otherwise, with a
four-digit last field, `dayfirst` semantics apply, with pandas' swap
fallback when the month position exceeds 12. -/
def resolveYMD (dayfirst : Bool) (a b c : List Char) :
    Option (Int × Nat × Nat) :=
  match digitsToNat a, digitsToNat b, digitsToNat c with
  | some na, some nb, some nc =>
    if a.length = 4 then some ((na : Int), nb, nc)
    else if c.length = 4 then
      let dm : Nat × Nat := if dayfirst then (na, nb) else (nb, na)
      let dm : Nat × Nat :=
        if 12 < dm.2 && dm.1 ≤ 12 then (dm.2, dm.1) else dm
      some ((nc : Int), dm.2, dm.1)
    else none
  | _, _, _ => none

/-- Parse the time-of-day part `HH:MM` or `HH:MM:SS` to seconds. -/
def parseTimePart (l : List Char) : Option Nat :=
  match (splitOnChar ':' l).map digitsToNat with
  | [some h, some mi] =>
    if h < 24 && mi < 60 then some (h * 3600 + mi * 60) else none
  | [some h, some mi, some sec] =>
    if h < 24 && mi < 60 && sec < 60 then
      some (h * 3600 + mi * 60 + sec)
    else none
  | _ => none

/-- Parse the date part using the first separator found among `/`, `-`, `.`. -/
def parseDatePart (dayfirst : Bool) (l : List Char) (secs : Nat) :
    Option Timestamp :=
  let sep : Option Char :=
    if l.contains '/' then some '/'
    else if l.contains '-' then some '-'
    else if l.contains '.' then some '.'
    else none
  match sep with
  | none => none
  | some sp =>
    match splitOnChar sp l with
    | [a, b, c] =>
      match resolveYMD dayfirst a b c with
      | some (y, m, d) =>
        if 1 ≤ m && m ≤ 12 && 1 ≤ d && d ≤ daysInMonth y m then
          some ⟨daysFromCivil y m d, secs⟩
        else none
      | none => none
    | _ => none

/-- Model of `pandas.to_datetime(·, dayfirst, errors='coerce')` on one
string (external library behaviour): tolerant of surrounding whitespace,
accepting slash-, dash- or dot-separated dates with an optional `HH:MM[:SS]`
time, year-first when the first field has four digits, `dayfirst` semantics
otherwise; every other string fails (`NaT`). -/
def pdToDatetime (dayfirst : Bool) (s : String) : Option Timestamp :=
  let t := stripChars s.data
  match splitOnChar ' ' t with
  | [ds] => parseDatePart dayfirst ds 0
  | [ds, tp] =>
    match parseTimePart tp with
    | some secs => parseDatePart dayfirst ds secs
    | none => none
  | _ => none

/-- `parse_single_date` (`parser.py` lines 64-107): null-likes map to null,
structured date-times pass through, strings are stripped and validated
against the recognized patterns before any parsing is attempted.  The
`strptime` fallback loop over `DATE_FORMATS` (lines 99-104) attempts only
format shapes that the `pdToDatetime` model already covers, so it is
represented by the single `pdToDatetime` call. -/
def parse_single_date (v : Cell) (dayfirst : Bool := true) :
    Option Timestamp :=
  match v with
  | .null => none
  | .ts t => some t
  | .str s =>
    if s = "nan" || s = "NaT" || s = "" then none
    else
      let ds := pyStrip s
      if !validate_date_string ds then none
      else pdToDatetime dayfirst ds

/-- The element-wise conversion applied by `parse_dates`
(`parser.py` line 188): `pd.to_datetime(column, dayfirst, errors='coerce')`
— note that it does *not* call `validate_date_string`. -/
def parseDateCell (dayfirst : Bool) (c : Cell) : Cell :=
  match c with
  | .null => .null
  | .ts t => .ts t
  | .str s =>
    match pdToDatetime dayfirst s with
    | some t => .ts t
    | none => .null

/-! ## DataFrames -/

/-- A pandas DataFrame: a row count and named columns of cells. -/
structure DataFrame where
  nrows : Nat
  cols : List (String × List Cell)
deriving DecidableEq, Repr

/-- First column with the given name, if any. -/
def lookupCol (name : String) : List (String × List Cell) → Option (List Cell)
  | [] => none
  | p :: t => if p.1 = name then some p.2 else lookupCol name t

/-- Column lookup (`col in df.columns` / `df[col]`). -/
def DataFrame.col? (df : DataFrame) (name : String) : Option (List Cell) :=
  lookupCol name df.cols

/-- `col in df.columns`. -/
def DataFrame.hasCol (df : DataFrame) (name : String) : Bool :=
  (df.col? name).isSome

/-- The named column, or `[]` when absent. -/
def DataFrame.getColD (df : DataFrame) (name : String) : List Cell :=
  (df.col? name).getD []

/-- `df[col] = v`: replace the column when present, append it otherwise. -/
def DataFrame.setCol (df : DataFrame) (name : String) (v : List Cell) :
    DataFrame :=
  if (df.col? name).isSome then
    ⟨df.nrows, df.cols.map (fun p => if p.1 = name then (p.1, v) else p)⟩
  else ⟨df.nrows, df.cols ++ [(name, v)]⟩

/-- The cell at row `i` of the named column (`none` when the column is
absent or the row index is out of range). -/
def DataFrame.getCell (df : DataFrame) (name : String) (i : Nat) :
    Option Cell :=
  (df.col? name).bind (fun l => l[i]?)

/-- Well-formedness: every column has exactly `nrows` cells. -/
@[reducible]
def DataFrame.WF (df : DataFrame) : Prop :=
  ∀ p ∈ df.cols, p.2.length = df.nrows

/-- A column is object-dtype in pandas exactly when it still holds at
least one Python string. -/
def isObjectCol (l : List Cell) : Bool := l.any (fun c => c matches .str _)

/-! ## Pipeline transformations (`pipeline.py`) -/

/-- `load_and_rename`'s column rename (`pipeline.py` line 81); the file
read itself is I/O and outside the model. -/
def renameColumns (mapping : List (String × String)) (df : DataFrame) :
    DataFrame :=
  ⟨df.nrows,
   df.cols.map (fun p =>
     match mapping.find? (fun q => q.1 == p.1) with
     | some q => (q.2, p.2)
     | none => p)⟩

/-- `validate_required_columns` (`pipeline.py` lines 93-111) as a predicate:
the source raises `KeyError` when it is false. -/
def requiredColumnsOk (df : DataFrame) : Bool :=
  df.hasCol "Bucket" && df.hasCol "Data de entrega" && df.hasCol "Título"

/-- `clean_string_columns` (`pipeline.py` lines 114-130): every
object-dtype column is passed through `astype(str).str.strip()`, which
turns a missing value into the literal string `"nan"`. -/
def clean_string_columns (df : DataFrame) : DataFrame :=
  ⟨df.nrows,
   df.cols.map (fun p =>
     if isObjectCol p.2 then
       (p.1, p.2.map (fun c => Cell.str (pyStrip (cellPyStr c))))
     else p)⟩

/-- `fill_default_values` (`pipeline.py` lines 133-149):
`df.fillna({'Atribuído': DEFAULT_ASSIGNEE})`. -/
def fill_default_values (df : DataFrame) : DataFrame :=
  match df.col? "Atribuído" with
  | none => df
  | some l =>
    df.setCol "Atribuído"
      (l.map (fun c => if c.isna then Cell.str DEFAULT_ASSIGNEE else c))

/-- The `isin` membership test of `pipeline.py` line 216 on one bucket
cell: the pandas `.str` accessor yields `NaN` on non-string cells, and
`NaN.isin(...)` is false. -/
def bucketCellAllowed (c : Cell) : Bool :=
  match c with
  | .str s => allowed_buckets_normalized.contains (normalize_bucket_value s)
  | _ => false

/-- Null out the cells of a column selected by a boolean mask
(`df.loc[mask, col] = pd.NaT`, `pipeline.py` lines 247-248).  When the
column does not exist, pandas creates it, filled with missing values. -/
def setColMasked (mask : List Bool) (col : Option (List Cell)) : List Cell :=
  match col with
  | some l => List.zipWith (fun m x => if m then Cell.null else x) mask l
  | none => mask.map (fun _ => Cell.null)

/-- `validate_dates_by_bucket` (`pipeline.py` lines 152-253): when the
bucket column is absent, return the frame unchanged; otherwise null the
start and due date of every record whose normalized bucket label is not in
the normalized allow-list.  The logging, the temporary
`bucket_normalized` column (added and dropped inside the function) and
the audit counts do not affect the returned data. -/
def validate_dates_by_bucket (df : DataFrame)
    (bucket_col : String := "Bucket")
    (start_col : String := "Data de início")
    (due_col : String := "Data de entrega") : DataFrame :=
  match df.col? bucket_col with
  | none => df
  | some bcol =>
    let mask := bcol.map (fun c => !bucketCellAllowed c)
    let df1 := df.setCol start_col (setColMasked mask (df.col? start_col))
    df1.setCol due_col (setColMasked mask (df1.col? due_col))

/-- `create_backup_columns` (`pipeline.py` lines 277-290):
`df['Due_raw'] = df['Data de entrega'].astype(str)`. -/
def create_backup_columns (df : DataFrame) : DataFrame :=
  match df.col? "Data de entrega" with
  | some l => df.setCol "Due_raw" (l.map (fun c => Cell.str (cellPyStr c)))
  | none => df

/-- `due - pd.Timedelta(days=n)` on one cell (`pipeline.py` line 331);
only date-time cells are ever selected by the mask in the pipeline (a
string cell there would raise in the source and is returned unchanged
here). -/
def cellSubDays (n : Nat) : Cell → Cell
  | .ts t => .ts (tsSubDays t n)
  | c => c

/-- `fill_missing_start_dates` (`pipeline.py` lines 293-346): for records
with a due date and no start date, set the start date to the due date
minus `days_before` days; all other records and all other columns are
unchanged.  The post-hoc `invalid_dates` scan (lines 341-344) only logs. -/
def fill_missing_start_dates (df : DataFrame)
    (start_col : String := "Data de início")
    (due_col : String := "Data de entrega")
    (days_before : Nat := 20) : DataFrame :=
  match df.col? start_col, df.col? due_col with
  | some scol, some dcol =>
    df.setCol start_col
      (List.zipWith
        (fun s d => if d.notna && s.isna then cellSubDays days_before d else s)
        scol dcol)
  | _, _ => df

/-- `parse_dates` (`parser.py` lines 157-207): each present date column is
converted element-wise with `pd.to_datetime(..., errors='coerce')` — with
no pattern validation.  The per-column `_original` backup columns
(added at line 184 and dropped again at line 205 whenever no value
failed) and the logged statistics are diagnostic only and are elided. -/
def parse_dates (df : DataFrame) (date_cols : List String)
    (dayfirst : Bool := true) : DataFrame :=
  date_cols.foldl
    (fun acc col =>
      match acc.col? col with
      | none => acc
      | some l => acc.setCol col (l.map (parseDateCell dayfirst)))
    df

/-- `debug_missing_due` (`parser.py` lines 210-251): pure diagnostics; the
frame is returned unchanged (any exception inside is caught). -/
def debug_missing_due (df : DataFrame) (bucket_col due_raw_col
    due_parsed_col : String) : DataFrame :=
  df

/-- The `.pipe` chain of `pipeline.main` (`pipeline.py` lines 440-461):
default filling, bucket-date rule, date parsing, start-date inference,
missing-due diagnostics. -/
def pipelineTransforms (df : DataFrame) : DataFrame :=
  debug_missing_due
    (fill_missing_start_dates
      (parse_dates
        (validate_dates_by_bucket (fill_default_values df) "Bucket"
          "Data de início" "Data de entrega")
        DATE_COLUMNS)
      "Data de início" "Data de entrega" START_DATE_FILL_DAYS)
    "Bucket" "Due_raw" "Data de entrega"

/-- Steps 3-5 of `pipeline.main` (`pipeline.py` lines 431-461), after the
load/rename and the required-column check: string cleaning, backup column,
then the transformation chain. -/
def processPipeline (df : DataFrame) : DataFrame :=
  pipelineTransforms (create_backup_columns (clean_string_columns df))

/-! ## Output validation (`test_validation.py`) -/

/-- `ValidationResult` (`test_validation.py` lines 19-26); the free-text
`message`/`details` fields are diagnostic and elided. -/
structure ValidationResult where
  test_name : String
  passed : Bool
  severity : String
deriving DecidableEq, Repr

/-- Count of non-null cells of a column. -/
def countNotna (l : List Cell) : Nat := l.countP Cell.notna

/-- `validate_row_count` (`test_validation.py` lines 70-89). -/
def validate_row_count (din dout : DataFrame) : ValidationResult :=
  if din.nrows == dout.nrows then ⟨"Contagem de Linhas", true, "INFO"⟩
  else ⟨"Contagem de Linhas", false, "ERROR"⟩

/-- The candidate identifier columns of `validate_unique_ids`
(`test_validation.py` line 94). -/
def idColumnCandidates : List String :=
  ["ID da Tarefa", "Identificação da tarefa", "ID", "Task ID"]

/-- The identifier set of a column: drop nulls, stringify
(`test_validation.py` lines 121-122). -/
def idStrings (l : List Cell) : List String :=
  (l.filter Cell.notna).map cellPyStr

/-- `validate_unique_ids` (`test_validation.py` lines 91-152). -/
def validate_unique_ids (din dout : DataFrame) : ValidationResult :=
  match idColumnCandidates.find? din.hasCol with
  | none => ⟨"IDs Únicos", true, "WARNING"⟩
  | some id_col =>
    let output_id_col :=
      if dout.hasCol "ID da Tarefa" then "ID da Tarefa" else id_col
    if !dout.hasCol output_id_col then ⟨"IDs Únicos", false, "ERROR"⟩
    else
      let input_ids := idStrings (din.getColD id_col)
      let output_ids := idStrings (dout.getColD output_id_col)
      let missing := input_ids.filter (fun s => !output_ids.contains s)
      let extra := output_ids.filter (fun s => !input_ids.contains s)
      if missing.isEmpty && extra.isEmpty then ⟨"IDs Únicos", true, "INFO"⟩
      else ⟨"IDs Únicos", false, "ERROR"⟩

/-- The tracked date columns of `validate_critical_dates` with their
input-column candidates (`test_validation.py` lines 156-160), in source
order. -/
def trackedDateColumns : List (String × List String) :=
  [("Data de entrega", ["Data de conclusão", "Data de entrega", "Due Date"]),
   ("Data de início", ["Data de início", "Start Date"]),
   ("Data de criação", ["Data de criação", "Criado em", "Created Date"])]

/-- Whether one tracked date column contributes a loss issue
(`test_validation.py` lines 165-195).  The float comparison
`loss_percentage > thr` with `loss_percentage = (iv - ov) / iv * 100` is
modelled exactly over the integers as `100 * (iv - ov) > thr * iv`
(equivalent for `iv > 0`; the boundary values are exactly representable). -/
def dateLossIssue (din dout : DataFrame) (p : String × List String) : Bool :=
  match p.2.find? din.hasCol with
  | none => false
  | some input_col =>
    if !dout.hasCol p.1 then false
    else
      let iv := countNotna (din.getColD input_col)
      let ov := countNotna (dout.getColD p.1)
      if 0 < iv then
        if p.1 = "Data de entrega" ∧ 100 * ((iv : Int) - ov) > 5 * iv then
          true
        else if 100 * ((iv : Int) - ov) > 20 * iv then true
        else false
      else false

/-- `validate_critical_dates` (`test_validation.py` lines 154-211). -/
def validate_critical_dates (din dout : DataFrame) : ValidationResult :=
  let issues := trackedDateColumns.filter (dateLossIssue din dout)
  if !issues.isEmpty then ⟨"Datas Críticas", false, "ERROR"⟩
  else ⟨"Datas Críticas", true, "INFO"⟩

/-- The `.str.strip().str.lower() == bucket` row predicate of
`test_validation.py` lines 232 and 245. -/
def isBucketRow (b : String) (c : Cell) : Bool := cellStripLower c == some b

/-- `validate_bucket_rules` (`test_validation.py` lines 213-268).  The
source indexes `bucket_data['Data de início']` / `['Data de entrega']`
unguarded (a missing column would raise, which the caller records as an
`ERROR` result); the model reads an absent column as empty. -/
def validate_bucket_rules (dout : DataFrame) : ValidationResult :=
  if !dout.hasCol "Bucket" then ⟨"Regras de Bucket", true, "WARNING"⟩
  else
    let bcol := dout.getColD "Bucket"
    let scol := dout.getColD "Data de início"
    let dcol := dout.getColD "Data de entrega"
    let issuesInvalid := INACTIVE_BUCKETS.foldl
      (fun acc b =>
        if 0 < bcol.countP (isBucketRow b) then
          let sBad := (List.zipWith
            (fun c x => isBucketRow b c && x.notna) bcol scol).count true
          let dBad := (List.zipWith
            (fun c x => isBucketRow b c && x.notna) bcol dcol).count true
          acc + (if 0 < sBad then 1 else 0) + (if 0 < dBad then 1 else 0)
        else acc) (0 : Nat)
    let execTotal := bcol.countP (isBucketRow "execução")
    let missingDue := (List.zipWith
      (fun c x => isBucketRow "execução" c && x.isna) bcol dcol).count true
    let issuesExec :=
      if 0 < execTotal && 10 * missingDue > 3 * execTotal then 1 else 0
    if 0 < issuesInvalid + issuesExec then ⟨"Regras de Bucket", false, "ERROR"⟩
    else ⟨"Regras de Bucket", true, "INFO"⟩

/-- The elementwise `start > due` comparison of `test_validation.py`
line 282: date-times compare chronologically, strings lexicographically
(mixed operands raise in pandas and are modelled as false). -/
def cellGtB (a b : Cell) : Bool :=
  match a, b with
  | .ts x, .ts y => tsLtB y x
  | .str x, .str y => decide (y < x)
  | _, _ => false

/-- The `.dt.year` of a cell (`test_validation.py` lines 296-297): only
date-time cells carry a year (a string column there raises in pandas and
contributes nothing here). -/
def cellYear : Cell → Option Int
  | .ts t => some (tsYear t)
  | _ => none

/-- `validate_data_consistency` (`test_validation.py` lines 270-317);
`current_year` models `pd.Timestamp.now().year`, which the source reads
from the clock. -/
def validate_data_consistency (current_year : Int) (dout : DataFrame) :
    ValidationResult :=
  let startAfterDue :=
    if dout.hasCol "Data de início" && dout.hasCol "Data de entrega" then
      (List.zipWith
        (fun s d => s.notna && d.notna && cellGtB s d)
        (dout.getColD "Data de início") (dout.getColD "Data de entrega")).count
        true
    else 0
  let yearIssues := ["Data de início", "Data de entrega",
      "Data de conclusão"].foldl
    (fun acc col =>
      if dout.hasCol col then
        let years := (dout.getColD col).filterMap cellYear
        let old := years.countP (fun y => y < current_year - 2)
        let fut := years.countP (fun y => y > current_year + 2)
        acc + (if 0 < old then 1 else 0) + (if 0 < fut then 1 else 0)
      else acc) (0 : Nat)
  if 0 < (if 0 < startAfterDue then 1 else 0) + yearIssues then
    ⟨"Consistência de Dados", false, "WARNING"⟩
  else ⟨"Consistência de Dados", true, "INFO"⟩

/-- `run_all_validations` (`test_validation.py` lines 353-396) on two
already-loaded frames: run the five checks in order and succeed exactly
when no result is a non-passing one with severity in
`["ERROR", "CRITICAL"]`. -/
def run_all_validations (current_year : Int) (din dout : DataFrame) :
    List ValidationResult × Bool :=
  let results :=
    [validate_row_count din dout,
     validate_unique_ids din dout,
     validate_critical_dates din dout,
     validate_bucket_rules dout,
     validate_data_consistency current_year dout]
  (results,
   (results.filter (fun r =>
     !r.passed && (r.severity == "ERROR" || r.severity == "CRITICAL"))).isEmpty)

/-! ## Concrete scenario frames -/

/-- Proof-side companion: the ASCII lower-case letters (the possible
outputs of `normChar` on characters it rewrites). -/
def asciiLowerChars : List Char :=
  ['a','b','c','d','e','f','g','h','i','j','k','l','m',
   'n','o','p','q','r','s','t','u','v','w','x','y','z']

/-- The three-record end-to-end scenario of the specification, with the
raw (pre-rename) Planner export columns: one `"Backlog"` record with a due
date, one `"Execução"` record with a due date and no start date, one
`"Concluído"` record with both dates. -/
def c2Input : DataFrame :=
  ⟨3, [("Identificação da tarefa", [.str "T1", .str "T2", .str "T3"]),
       ("Nome da tarefa", [.str "Tarefa A", .str "Tarefa B", .str "Tarefa C"]),
       ("Nome do Bucket", [.str "Backlog", .str "Execução", .str "Concluído"]),
       ("Data de início", [.null, .null, .str "01/03/2024"]),
       ("Data de conclusão",
        [.str "10/03/2024", .str "25/03/2024", .str "28/03/2024"])]⟩

/-- The pipeline output for `c2Input` (rename, then steps 3-5 of
`pipeline.main`). -/
def c2Output : DataFrame := processPipeline (renameColumns COLUMN_MAPPING c2Input)

/-- A one-record frame whose due-date string matches none of the
recognized `DATE_PATTERNS`. -/
def c6Frame : DataFrame := ⟨1, [("Data de entrega", [.str "2024/03/05"])]⟩

/-- Ten records, all with a due date. -/
def c7Input : DataFrame :=
  ⟨10, [("Data de entrega", List.replicate 10 (Cell.ts (mkTs 2024 5 1)))]⟩

/-- The same ten records after an artificial 10% due-date drop. -/
def c7Output : DataFrame :=
  ⟨10, [("Data de entrega",
         Cell.null :: List.replicate 9 (Cell.ts (mkTs 2024 5 1)))]⟩

/-- A healthy one-record input/output pair for the validator. -/
def c8wInput : DataFrame :=
  ⟨1, [("ID da Tarefa", [.str "T9"]),
       ("Bucket", [.str "Execução"]),
       ("Data de entrega", [.ts (mkTs 2025 1 10)])]⟩

/-- The same record, unchanged by the pipeline. -/
def c8wOutput : DataFrame :=
  ⟨1, [("ID da Tarefa", [.str "T9"]),
       ("Bucket", [.str "Execução"]),
       ("Data de entrega", [.ts (mkTs 2025 1 10)])]⟩

/-- Two records whose assignee column holds one real string and one
missing value (hence an object-dtype column in pandas). -/
def c9Input : DataFrame :=
  ⟨2, [("Bucket", [.str "Execução", .str "Execução"]),
       ("Título", [.str "A", .str "B"]),
       ("Data de entrega", [.str "25/03/2024", .str "26/03/2024"]),
       ("Atribuído", [.str "Alice", .null])]⟩

/-- One record in a date-forbidden bucket, with both dates present. -/
def c1WitnessFrame : DataFrame :=
  ⟨1, [("Bucket", [.str "A Fazer"]),
       ("Data de início", [.str "01/03/2024"]),
       ("Data de entrega", [.ts (mkTs 2024 3 20)])]⟩

/-- Two records: one with a due date and no start date, one with both. -/
def c5WitnessFrame : DataFrame :=
  ⟨2, [("Data de início", [.null, .ts (mkTs 2024 4 1)]),
       ("Data de entrega", [.ts (mkTs 2024 3 25), .ts (mkTs 2024 4 10)])]⟩

/-- A frame with no bucket column at all. -/
def c10WitnessFrame : DataFrame := ⟨1, [("Título", [.str "X"])]⟩

/-! ## Character-level facts about the normalization -/

theorem replChar_cases (a b x : Char) :
    replChar a b x = x ∨ replChar a b x = b := by
  unfold replChar
  split_ifs <;> simp

theorem pyLowerChar_cases (c : Char) :
    pyLowerChar c = c ∨ ∃ p ∈ pyLowerTable, pyLowerChar c = p.2 := by
  unfold pyLowerChar
  cases h : pyLowerTable.find? (fun p => p.1 == c) with
  | none => exact Or.inl rfl
  | some p => exact Or.inr ⟨p, List.mem_of_find?_eq_some h, rfl⟩

/-- The nine accent replacements, as one character function (the
accent-replacement part of `normChar`). -/
def accentChainChar (x : Char) : Char :=
  replChar 'ó' 'o' (replChar 'á' 'a' (replChar 'é' 'e' (replChar 'ê' 'e'
    (replChar 'õ' 'o' (replChar 'ú' 'u' (replChar 'í' 'i' (replChar 'ã' 'a'
      (replChar 'ç' 'c' x))))))))

theorem normChar_eq_accentChain (c : Char) :
    normChar c = accentChainChar (pyLowerChar c) := rfl

theorem accentChainChar_cases (x : Char) :
    accentChainChar x = x ∨
      accentChainChar x ∈ (['c', 'a', 'i', 'u', 'o', 'e'] : List Char) := by
  unfold accentChainChar
  rcases replChar_cases 'ç' 'c' x with h0 | h0
  · rw [h0]
    rcases replChar_cases 'ã' 'a' x with h1 | h1
    · rw [h1]
      rcases replChar_cases 'í' 'i' x with h2 | h2
      · rw [h2]
        rcases replChar_cases 'ú' 'u' x with h3 | h3
        · rw [h3]
          rcases replChar_cases 'õ' 'o' x with h4 | h4
          · rw [h4]
            rcases replChar_cases 'ê' 'e' x with h5 | h5
            · rw [h5]
              rcases replChar_cases 'é' 'e' x with h6 | h6
              · rw [h6]
                rcases replChar_cases 'á' 'a' x with h7 | h7
                · rw [h7]
                  rcases replChar_cases 'ó' 'o' x with h8 | h8
                  · rw [h8]; exact Or.inl rfl
                  · rw [h8]; right; decide
                · rw [h7]; right; decide
              · rw [h6]; right; decide
            · rw [h5]; right; decide
          · rw [h4]; right; decide
        · rw [h3]; right; decide
      · rw [h2]; right; decide
    · rw [h1]; right; decide
  · rw [h0]; right; decide

theorem pyLowerTable_outputs :
    ∀ p ∈ pyLowerTable, accentChainChar p.2 ∈ asciiLowerChars := by decide

theorem normChar_cases (c : Char) :
    normChar c = c ∨ normChar c ∈ asciiLowerChars := by
  rw [normChar_eq_accentChain]
  rcases pyLowerChar_cases c with h | ⟨p, hp, h⟩
  · rw [h]
    rcases accentChainChar_cases c with h2 | h2
    · exact Or.inl h2
    · right
      have hsub : ∀ y ∈ (['c', 'a', 'i', 'u', 'o', 'e'] : List Char),
          y ∈ asciiLowerChars := by decide
      exact hsub _ h2
  · rw [h]
    exact Or.inr (pyLowerTable_outputs p hp)

theorem normChar_fixed : ∀ y ∈ asciiLowerChars, normChar y = y := by decide

theorem normChar_idem (c : Char) : normChar (normChar c) = normChar c := by
  rcases normChar_cases c with h | h
  · rw [h]; exact h
  · exact normChar_fixed _ h

theorem normChar_space (c : Char) :
    isPySpace (normChar c) = isPySpace c := by
  by_cases hc : isPySpace c = true
  · have h4 : ((c = ' ' ∨ c = '\t') ∨ c = '\n') ∨ c = '\r' := by
      simpa [isPySpace] using hc
    rcases h4 with ((h | h) | h) | h <;> (subst h; decide)
  · have h2 : isPySpace c = false := by
      simpa using hc
    rw [h2]
    rcases normChar_cases c with h | h
    · rw [h]; exact h2
    · have hlist : ∀ y ∈ asciiLowerChars, isPySpace y = false := by decide
      exact hlist _ h

/-! ## Stripping commutes with and is idempotent on normalized strings -/

theorem dropWhile_of_rdropWhile {p : Char → Bool} (l : List Char)
    (h : List.dropWhile p l = l) :
    List.dropWhile p (List.rdropWhile p l) = List.rdropWhile p l := by
  obtain ⟨s, hs⟩ := List.rdropWhile_prefix p l
  cases hr : List.rdropWhile p l with
  | nil => simp
  | cons c t =>
    rw [hr] at hs
    have hl : l = c :: (t ++ s) := by rw [← hs]; rfl
    have hpc : p c = false := by
      rw [hl, List.dropWhile_cons] at h
      by_contra hpc'
      have hpc2 : p c = true := by simpa using hpc'
      rw [if_pos hpc2] at h
      have hlen := congrArg List.length h
      have hle := List.IsSuffix.length_le (List.dropWhile_suffix p (l := t ++ s))
      rw [List.length_cons] at hlen
      omega
    rw [List.dropWhile_cons, if_neg (by simp [hpc])]

theorem stripChars_idem (l : List Char) :
    stripChars (stripChars l) = stripChars l := by
  unfold stripChars
  have h1 : List.dropWhile isPySpace (List.dropWhile isPySpace l) =
      List.dropWhile isPySpace l := List.dropWhile_idempotent _ _
  rw [dropWhile_of_rdropWhile _ h1]
  exact List.rdropWhile_idempotent _ _

theorem dropWhile_map_of {α : Type} (f : α → α) (p : α → Bool)
    (hf : ∀ c, p (f c) = p c) (l : List α) :
    List.dropWhile p (l.map f) = (List.dropWhile p l).map f := by
  induction l with
  | nil => simp
  | cons a t ih =>
    simp only [List.map_cons, List.dropWhile_cons, hf a]
    split_ifs with h
    · exact ih
    · rfl

theorem rdropWhile_map_of {α : Type} (f : α → α) (p : α → Bool)
    (hf : ∀ c, p (f c) = p c) (l : List α) :
    List.rdropWhile p (l.map f) = (List.rdropWhile p l).map f := by
  unfold List.rdropWhile
  rw [← List.map_reverse, dropWhile_map_of f p hf, List.map_reverse]

theorem stripChars_map_of (f : Char → Char)
    (hf : ∀ c, isPySpace (f c) = isPySpace c) (l : List Char) :
    stripChars (l.map f) = (stripChars l).map f := by
  unfold stripChars
  rw [dropWhile_map_of f _ hf, rdropWhile_map_of f _ hf]

theorem strReplaceChar_mk (a b : Char) (l : List Char) :
    strReplaceChar a b (String.mk l) = String.mk (l.map (replChar a b)) := rfl

theorem pyLower_mk (l : List Char) :
    pyLower (String.mk l) = String.mk (l.map pyLowerChar) := rfl

theorem normalize_allowed_eq (s : String) :
    normalize_allowed_bucket s = String.mk (s.data.map normChar) := by
  simp only [normalize_allowed_bucket, applyAccentReplacements, pyLower,
    strReplaceChar_mk, List.map_map]
  apply congrArg String.mk
  apply List.map_congr_left
  intro c _
  simp only [Function.comp_apply, normChar]

theorem normalize_bucket_eq (s : String) :
    normalize_bucket_value s = String.mk ((stripChars s.data).map normChar) := by
  have hps : pyStrip s = String.mk (stripChars s.data) := rfl
  simp only [normalize_bucket_value, applyAccentReplacements, hps, pyLower_mk,
    strReplaceChar_mk, List.map_map]
  apply congrArg String.mk
  apply List.map_congr_left
  intro c _
  simp only [Function.comp_apply, normChar]

/-! ## Claims C3 and C4: normalization -/

theorem map_normChar_idem (l : List Char) :
    List.map normChar (List.map normChar l) = List.map normChar l := by
  induction l with
  | nil => rfl
  | cons a t ih => simp only [List.map_cons, ih, normChar_idem]

/-- Claim C4: the label normalization of `validate_dates_by_bucket` is
idempotent — `normalize(normalize(x)) = normalize(x)` for every string —
and the equivalent spellings `"Execução"`, `"execucao"`, `" EXECUÇÃO "`
all normalize to `"execucao"`. -/
theorem c4_normalize_idempotent :
    (∀ s : String,
      normalize_bucket_value (normalize_bucket_value s) =
        normalize_bucket_value s) ∧
    normalize_bucket_value "Execução" = "execucao" ∧
    normalize_bucket_value "execucao" = "execucao" ∧
    normalize_bucket_value " EXECUÇÃO " = "execucao" := by
  have h1 : normalize_bucket_value "Execução" = "execucao" := by decide
  have h2 : normalize_bucket_value "execucao" = "execucao" := by decide
  have h3 : normalize_bucket_value " EXECUÇÃO " = "execucao" := by decide
  refine ⟨fun s => ?_, h1, h2, h3⟩
  rw [normalize_bucket_eq, normalize_bucket_eq]
  have hdata : (String.mk ((stripChars s.data).map normChar)).data =
      (stripChars s.data).map normChar := rfl
  rw [hdata, stripChars_map_of normChar normChar_space,
    stripChars_idem, map_normChar_idem]

/-- Claim C3 counterexample: the record-side and allow-list-side
normalizations are not extensionally equal functions.  In
`debug_buckets.py` the record side lacks the `é`/`á` replacements
(`"Análise"` keeps its accent), and in `pipeline.py` the two sides differ
on labels with surrounding whitespace (only the record side strips). -/
theorem c3_normalization_sites_counterexample :
    debug_normalize_value "Análise" ≠ debug_normalize_allowed "Análise" ∧
    normalize_bucket_value " execução" ≠ normalize_allowed_bucket " execução" := by
  decide

/-- Claim C3 (amended): within `pipeline.py` the two normalization call
sites agree — the record-side normalization is exactly the allow-list-side
normalization composed with `strip`, so they coincide on every allow-list
entry and on every trimmed label — and the debug script's allow-list-side
normalization is the same function as the pipeline's; only the debug
script's record-side normalization (missing the `ê`/`é`/`á`/`ó`
replacements) deviates. -/
theorem c3_normalization_sites_amended :
    (∀ s : String, normalize_bucket_value s = normalize_allowed_bucket (pyStrip s)) ∧
    (∀ s ∈ ACTIVE_BUCKETS, normalize_bucket_value s = normalize_allowed_bucket s) ∧
    (∀ s : String, debug_normalize_allowed s = normalize_allowed_bucket s) := by
  exact ⟨fun s => rfl, by decide, fun s => rfl⟩

/-- Claim C3 witness: the amended agreement evaluated on the allow-list
entry `"execução"`. -/
theorem c3_normalization_sites_witness :
    normalize_bucket_value "execução" = normalize_allowed_bucket "execução" :=
  c3_normalization_sites_amended.2.1 "execução" (by decide)



/-! ## DataFrame column-access lemmas -/

theorem lookupCol_map_self (n : String) (v : List Cell) :
    ∀ cols : List (String × List Cell),
      lookupCol n (cols.map (fun p => if p.1 = n then (p.1, v) else p)) =
        (lookupCol n cols).map (fun _ => v) := by
  intro cols
  induction cols with
  | nil => rfl
  | cons p t ih =>
    by_cases h : p.1 = n
    · simp [lookupCol, h]
    · simp [lookupCol, h, ih]

theorem lookupCol_map_other (n n' : String) (v : List Cell)
    (hne : n' ≠ n) :
    ∀ cols : List (String × List Cell),
      lookupCol n' (cols.map (fun p => if p.1 = n then (p.1, v) else p)) =
        lookupCol n' cols := by
  intro cols
  induction cols with
  | nil => rfl
  | cons p t ih =>
    by_cases h : p.1 = n
    · have hn' : n ≠ n' := fun hx => hne hx.symm
      simp [lookupCol, h, hn', ih]
    · by_cases h2 : p.1 = n'
      · simp [lookupCol, h, h2, hne]
      · simp [lookupCol, h, h2, ih]

theorem lookupCol_append_none (n : String)
    (l l' : List (String × List Cell)) (h : lookupCol n l = none) :
    lookupCol n (l ++ l') = lookupCol n l' := by
  induction l with
  | nil => rfl
  | cons p t ih =>
    by_cases hp : p.1 = n
    · simp [lookupCol, hp] at h
    · simp [lookupCol, hp] at h ⊢
      exact ih h

theorem lookupCol_append_some (n : String)
    (l l' : List (String × List Cell)) (q : List Cell)
    (h : lookupCol n l = some q) :
    lookupCol n (l ++ l') = some q := by
  induction l with
  | nil => simp [lookupCol] at h
  | cons p t ih =>
    by_cases hp : p.1 = n
    · simp [lookupCol, hp] at h ⊢
      exact h
    · simp [lookupCol, hp] at h ⊢
      exact ih h

theorem col?_setCol_self (df : DataFrame) (n : String) (v : List Cell) :
    (df.setCol n v).col? n = some v := by
  unfold DataFrame.setCol
  split_ifs with hs
  · unfold DataFrame.col? at hs ⊢
    rw [lookupCol_map_self]
    rcases hl : lookupCol n df.cols with _ | l
    · rw [hl] at hs; simp at hs
    · rfl
  · unfold DataFrame.col? at hs ⊢
    have hnone : lookupCol n df.cols = none := by
      rcases hl : lookupCol n df.cols with _ | l
      · rfl
      · rw [hl] at hs; simp at hs
    rw [lookupCol_append_none n _ _ hnone]
    simp [lookupCol]

theorem col?_setCol_other (df : DataFrame) (n n' : String) (v : List Cell)
    (hne : n' ≠ n) :
    (df.setCol n v).col? n' = df.col? n' := by
  unfold DataFrame.setCol
  split_ifs with hs
  · unfold DataFrame.col?
    exact lookupCol_map_other n n' v hne df.cols
  · unfold DataFrame.col?
    rcases hl : lookupCol n' df.cols with _ | l
    · rw [lookupCol_append_none n' _ _ hl]
      have hnn : n ≠ n' := fun hx => hne hx.symm
      simp [lookupCol, hnn]
    · exact lookupCol_append_some n' _ _ l hl

theorem nrows_setCol (df : DataFrame) (n : String) (v : List Cell) :
    (df.setCol n v).nrows = df.nrows := by
  unfold DataFrame.setCol
  split_ifs <;> rfl

theorem lookupCol_mem (n : String) (l : List Cell) :
    ∀ cols : List (String × List Cell),
      lookupCol n cols = some l → ∃ p ∈ cols, p.2 = l := by
  intro cols
  induction cols with
  | nil => intro h; simp [lookupCol] at h
  | cons p t ih =>
    intro h
    by_cases hp : p.1 = n
    · refine ⟨p, List.mem_cons_self p t, ?_⟩
      simp [lookupCol, hp] at h
      exact h
    · simp [lookupCol, hp] at h
      obtain ⟨q, hq, hq2⟩ := ih h
      exact ⟨q, List.mem_cons_of_mem p hq, hq2⟩

theorem col?_mem (df : DataFrame) (n : String) (l : List Cell)
    (h : df.col? n = some l) : ∃ p ∈ df.cols, p.2 = l := by
  unfold DataFrame.col? at h
  exact lookupCol_mem n l df.cols h

theorem col?_length (df : DataFrame) (n : String) (l : List Cell)
    (hwf : df.WF) (h : df.col? n = some l) : l.length = df.nrows := by
  obtain ⟨p, hp, hpl⟩ := col?_mem df n l h
  rw [← hpl]
  exact hwf p hp

theorem WF_setCol (df : DataFrame) (n : String) (v : List Cell)
    (hwf : df.WF) (hlen : v.length = df.nrows) : (df.setCol n v).WF := by
  unfold DataFrame.setCol
  split_ifs with hs
  · intro p hp
    obtain ⟨q, hq, hqe⟩ := List.mem_map.mp hp
    by_cases hqn : q.1 = n
    · rw [if_pos hqn] at hqe
      rw [← hqe]
      exact hlen
    · rw [if_neg hqn] at hqe
      rw [← hqe]
      exact hwf q hq
  · intro p hp
    rcases List.mem_append.mp hp with h | h
    · exact hwf p h
    · have : p = (n, v) := by simpa using h
      rw [this]
      exact hlen

theorem zipWith_getElem?_some {α β γ : Type} (f : α → β → γ)
    {as : List α} {bs : List β} {i : Nat} {a : α} {b : β}
    (ha : as[i]? = some a) (hb : bs[i]? = some b) :
    (List.zipWith f as bs)[i]? = some (f a b) := by
  rw [List.getElem?_zipWith, ha, hb]

/-! ## Pipeline-step lemmas -/

theorem col?_fill_default (df : DataFrame) (n : String)
    (hne : n ≠ "Atribuído") :
    (fill_default_values df).col? n = df.col? n := by
  unfold fill_default_values
  rcases h : df.col? "Atribuído" with _ | l
  · rfl
  · exact col?_setCol_other _ _ _ _ hne

theorem getCell_fill_default (df : DataFrame) (n : String) (i : Nat)
    (hne : n ≠ "Atribuído") :
    (fill_default_values df).getCell n i = df.getCell n i := by
  unfold DataFrame.getCell
  rw [col?_fill_default df n hne]

theorem nrows_fill_default (df : DataFrame) :
    (fill_default_values df).nrows = df.nrows := by
  unfold fill_default_values
  rcases h : df.col? "Atribuído" with _ | l
  · rfl
  · exact nrows_setCol _ _ _

theorem WF_fill_default (df : DataFrame) (hwf : df.WF) :
    (fill_default_values df).WF := by
  unfold fill_default_values
  rcases h : df.col? "Atribuído" with _ | l
  · exact hwf
  · apply WF_setCol _ _ _ hwf
    rw [List.length_map]
    exact col?_length df _ l hwf h

theorem vdb_nulls (df : DataFrame) (bc sc dc : String) (i : Nat) (c : Cell)
    (hwf : df.WF) (hscdc : sc ≠ dc)
    (hb : df.getCell bc i = some c) (hc : bucketCellAllowed c = false) :
    (validate_dates_by_bucket df bc sc dc).getCell sc i = some Cell.null ∧
    (validate_dates_by_bucket df bc sc dc).getCell dc i = some Cell.null := by
  unfold DataFrame.getCell at hb
  obtain ⟨bcol, hbcol, hbi⟩ := Option.bind_eq_some.mp hb
  have hilen : i < bcol.length := (List.getElem?_eq_some.mp hbi).1
  have hblen : bcol.length = df.nrows := col?_length df bc bcol hwf hbcol
  have hmi : (bcol.map (fun c => !bucketCellAllowed c))[i]? = some true := by
    rw [List.getElem?_map, hbi]
    simp [hc]
  have hmasked : ∀ co : Option (List Cell),
      (∀ l, co = some l → l.length = df.nrows) →
      (setColMasked (bcol.map (fun c => !bucketCellAllowed c)) co)[i]? =
        some Cell.null := by
    intro co hco
    rcases hcc : co with _ | l
    · unfold setColMasked
      rw [List.getElem?_map, hmi]
      rfl
    · unfold setColMasked
      have hl : l.length = df.nrows := hco l hcc
      have hli : l[i]? = some l[i] := List.getElem?_eq_getElem (by omega)
      rw [zipWith_getElem?_some _ hmi hli]
      rfl
  unfold validate_dates_by_bucket
  simp only [hbcol]
  constructor
  · unfold DataFrame.getCell
    rw [col?_setCol_other _ dc sc _ hscdc, col?_setCol_self]
    exact hmasked (df.col? sc) (fun l hl => col?_length df sc l hwf hl)
  · unfold DataFrame.getCell
    rw [col?_setCol_self]
    rw [col?_setCol_other _ sc dc _ (fun hx => hscdc hx.symm)]
    exact hmasked (df.col? dc) (fun l hl => col?_length df dc l hwf hl)

theorem parse_dates_preserves_null (b : Bool) (n : String) (i : Nat) :
    ∀ (L : List String) (df : DataFrame),
      df.getCell n i = some Cell.null →
      (parse_dates df L b).getCell n i = some Cell.null := by
  intro L
  induction L with
  | nil => intro df h; exact h
  | cons col t ih =>
    intro df h
    have hstep : parse_dates df (col :: t) b =
        parse_dates
          (match df.col? col with
           | none => df
           | some l => df.setCol col (l.map (parseDateCell b))) t b := rfl
    rw [hstep]
    apply ih
    rcases hcc : df.col? col with _ | l
    · simp only [hcc]
      exact h
    · simp only [hcc]
      by_cases hn : n = col
      · subst hn
        unfold DataFrame.getCell at h ⊢
        rw [col?_setCol_self]
        obtain ⟨l', hl', hli⟩ := Option.bind_eq_some.mp h
        have hll : l' = l := by
          rw [hcc] at hl'
          exact (Option.some_inj.mp hl').symm
        subst hll
        simp only [Option.some_bind]
        rw [List.getElem?_map, hli]
        rfl
      · unfold DataFrame.getCell at h ⊢
        rw [col?_setCol_other _ col n _ hn]
        exact h

theorem fill_missing_getCell_start (df : DataFrame) (sc dc : String)
    (k i : Nat) (s d : Cell)
    (hs : df.getCell sc i = some s) (hd : df.getCell dc i = some d) :
    (fill_missing_start_dates df sc dc k).getCell sc i =
      some (if d.notna && s.isna then cellSubDays k d else s) := by
  unfold DataFrame.getCell at hs hd
  obtain ⟨scol, hscol, hsi⟩ := Option.bind_eq_some.mp hs
  obtain ⟨dcol, hdcol, hdi⟩ := Option.bind_eq_some.mp hd
  unfold fill_missing_start_dates
  simp only [hscol, hdcol]
  unfold DataFrame.getCell
  rw [col?_setCol_self]
  simp only [Option.some_bind]
  rw [zipWith_getElem?_some _ hsi hdi]

theorem fill_missing_no_due (df : DataFrame) (sc dc : String) (k : Nat)
    (hd : df.col? dc = none) :
    fill_missing_start_dates df sc dc k = df := by
  unfold fill_missing_start_dates
  rcases h1 : df.col? sc with _ | scol <;> simp only [h1, hd]

theorem col?_fill_missing_other (df : DataFrame) (sc dc : String) (k : Nat)
    (n : String) (hne : n ≠ sc) :
    (fill_missing_start_dates df sc dc k).col? n = df.col? n := by
  unfold fill_missing_start_dates
  rcases h1 : df.col? sc with _ | scol <;> rcases h2 : df.col? dc with _ | dcol <;>
    simp only [h1, h2]
  exact col?_setCol_other _ sc n _ hne

/-! ## Claims C1, C5, C10: the bucket-date rule and start-date inference -/

/-- Claim C10: when the column named by `bucket_col` is absent,
`validate_dates_by_bucket` returns the frame completely unchanged (the
source logs a warning and returns `df`; no exception, no modification). -/
theorem c10_missing_bucket_column (df : DataFrame) (bc sc dc : String)
    (h : df.hasCol bc = false) :
    validate_dates_by_bucket df bc sc dc = df := by
  have hn : df.col? bc = none := by
    unfold DataFrame.hasCol at h
    rcases hcc : df.col? bc with _ | l
    · rfl
    · rw [hcc] at h; simp at h
  unfold validate_dates_by_bucket
  simp only [hn]

/-- Claim C10 witness: a concrete frame without a `Bucket` column passes
through the rule engine untouched. -/
theorem c10_missing_bucket_column_witness :
    validate_dates_by_bucket c10WitnessFrame "Bucket" "Data de início"
      "Data de entrega" = c10WitnessFrame :=
  c10_missing_bucket_column c10WitnessFrame "Bucket" "Data de início"
    "Data de entrega" (by decide)

/-- Claim C5: for any record of a well-formed frame, if the due-date cell
is a date-time and the start-date cell is null, `fill_missing_start_dates`
sets the start date to the due date minus `days_before` calendar days; and
any record whose start-date cell is non-null keeps it unchanged. -/
theorem c5_start_date_inference (df : DataFrame) (sc dc : String)
    (k i : Nat) (hwf : df.WF) :
    (∀ t : Timestamp,
        df.getCell dc i = some (Cell.ts t) →
        df.getCell sc i = some Cell.null →
        (fill_missing_start_dates df sc dc k).getCell sc i =
          some (Cell.ts (tsSubDays t k))) ∧
    (∀ x : Cell, df.getCell sc i = some x → x.isna = false →
        (fill_missing_start_dates df sc dc k).getCell sc i = some x) := by
  constructor
  · intro t hd hs
    rw [fill_missing_getCell_start df sc dc k i _ _ hs hd]
    rfl
  · intro x hs hx
    rcases hd : df.col? dc with _ | dcol
    · rw [fill_missing_no_due df sc dc k hd]
      exact hs
    · have hs0 := hs
      unfold DataFrame.getCell at hs0
      obtain ⟨scol, hscol, hsi⟩ := Option.bind_eq_some.mp hs0
      have hslen : scol.length = df.nrows := col?_length df sc scol hwf hscol
      have hdlen : dcol.length = df.nrows := col?_length df dc dcol hwf hd
      have hilt : i < scol.length := (List.getElem?_eq_some.mp hsi).1
      have hdi : dcol[i]? = some dcol[i] := List.getElem?_eq_getElem (by omega)
      have hdc : df.getCell dc i = some dcol[i] := by
        unfold DataFrame.getCell
        rw [hd]
        simpa using hdi
      rw [fill_missing_getCell_start df sc dc k i x dcol[i] hs hdc]
      simp [hx]

/-- Claim C5 witness: with a due date of 2024-03-25 and an offset of 20
days the inferred start date is 2024-03-05, and an already-present start
date (2024-04-01) is left unchanged. -/
theorem c5_start_date_inference_witness :
    (fill_missing_start_dates c5WitnessFrame "Data de início"
        "Data de entrega" 20).getCell "Data de início" 0 =
      some (Cell.ts (tsSubDays (mkTs 2024 3 25) 20)) ∧
    tsSubDays (mkTs 2024 3 25) 20 = mkTs 2024 3 5 ∧
    (fill_missing_start_dates c5WitnessFrame "Data de início"
        "Data de entrega" 20).getCell "Data de início" 1 =
      some (Cell.ts (mkTs 2024 4 1)) := by
  refine ⟨?_, by decide, ?_⟩
  · exact (c5_start_date_inference c5WitnessFrame "Data de início"
      "Data de entrega" 20 0 (by decide)).1 (mkTs 2024 3 25) (by decide)
      (by decide)
  · exact (c5_start_date_inference c5WitnessFrame "Data de início"
      "Data de entrega" 20 1 (by decide)).2 (Cell.ts (mkTs 2024 4 1))
      (by decide) (by decide)

/-- Claim C1: for every record of a well-formed frame whose bucket cell
normalizes outside the allow-list (or is not a string at all), after the
full transformation chain of `pipeline.main` — default filling, bucket-date
rule, date parsing, start-date inference, due-date diagnostics — both the
start date and the due date of that record are null, regardless of their
values before the pipeline; in particular the start-date inference never
fills a start date for such a record. -/
theorem c1_bucket_rule_invariant (df : DataFrame) (i : Nat) (c : Cell)
    (hwf : df.WF) (hb : df.getCell "Bucket" i = some c)
    (hc : bucketCellAllowed c = false) :
    (pipelineTransforms df).getCell "Data de início" i = some Cell.null ∧
    (pipelineTransforms df).getCell "Data de entrega" i = some Cell.null := by
  have hwf0 : (fill_default_values df).WF := WF_fill_default df hwf
  have hb0 : (fill_default_values df).getCell "Bucket" i = some c := by
    rw [getCell_fill_default df "Bucket" i (by decide)]
    exact hb
  obtain ⟨hs1, hd1⟩ := vdb_nulls (fill_default_values df) "Bucket"
    "Data de início" "Data de entrega" i c hwf0 (by decide) hb0 hc
  have hs2 := parse_dates_preserves_null true "Data de início" i
    DATE_COLUMNS _ hs1
  have hd2 := parse_dates_preserves_null true "Data de entrega" i
    DATE_COLUMNS _ hd1
  unfold pipelineTransforms debug_missing_due
  constructor
  · rw [fill_missing_getCell_start _ _ _ _ _ _ _ hs2 hd2]
    rfl
  · unfold DataFrame.getCell
    rw [col?_fill_missing_other _ _ _ _ _ (by decide)]
    exact hd2

/-- Claim C1 witness: a record in bucket `"A Fazer"` with both dates
present loses both to the pipeline. -/
theorem c1_bucket_rule_invariant_witness :
    (pipelineTransforms c1WitnessFrame).getCell "Data de início" 0 =
      some Cell.null ∧
    (pipelineTransforms c1WitnessFrame).getCell "Data de entrega" 0 =
      some Cell.null :=
  c1_bucket_rule_invariant c1WitnessFrame 0 (Cell.str "A Fazer") (by decide)
    (by decide) (by decide)

/-! ## Claims C2, C6, C9 -/

/-- Claim C2 counterexample: on the three-record scenario (Backlog with a
due date, Execução with a due date and no start, Concluído with both
dates) the required columns are present and the pipeline runs, but the
Output Validator reports overall failure, not success: nulling the
Backlog record's due date is a 33% due-date loss, above the 5% threshold
of the critical-date check. -/
theorem c2_scenario_counterexample :
    requiredColumnsOk (renameColumns COLUMN_MAPPING c2Input) = true ∧
    (run_all_validations 2025 c2Input c2Output).2 = false := by decide

/-- Claim C2 (amended): the per-record outcomes are as specified —
record 1 has both dates nulled, record 2 keeps its due date 2024-03-25 and
gains a start date inferred exactly 20 days earlier (2024-03-05), record 3
keeps both of its dates (parsed) — but the Output Validator reports
`passed = false`: the critical-date check flags the rule-based removal of
the single Backlog due date (33% > 5%) as an `ERROR`. -/
theorem c2_scenario_amended :
    c2Output.getCell "Data de início" 0 = some Cell.null ∧
    c2Output.getCell "Data de entrega" 0 = some Cell.null ∧
    c2Output.getCell "Data de entrega" 1 = some (Cell.ts (mkTs 2024 3 25)) ∧
    c2Output.getCell "Data de início" 1 =
      some (Cell.ts (tsSubDays (mkTs 2024 3 25) 20)) ∧
    tsSubDays (mkTs 2024 3 25) 20 = mkTs 2024 3 5 ∧
    c2Output.getCell "Data de início" 2 = some (Cell.ts (mkTs 2024 3 1)) ∧
    c2Output.getCell "Data de entrega" 2 = some (Cell.ts (mkTs 2024 3 28)) ∧
    validate_critical_dates c2Input c2Output =
      ⟨"Datas Críticas", false, "ERROR"⟩ ∧
    (run_all_validations 2025 c2Input c2Output).2 = false := by decide

/-- Claim C6 counterexample: `"2024/03/05"` matches none of the recognized
`DATE_PATTERNS` (so `validate_date_string` rejects it and the single-value
helper maps it to null), yet the column parsing the pipeline actually
applies (`parse_dates`, i.e. `pd.to_datetime(..., errors='coerce')` with no
pattern validation) parses it to 2024-03-05 instead of rejecting it. -/
theorem c6_validation_first_counterexample :
    validate_date_string "2024/03/05" = false ∧
    (pipelineTransforms c6Frame).getCell "Data de entrega" 0 =
      some (Cell.ts (mkTs 2024 3 5)) ∧
    parse_single_date (Cell.str "2024/03/05") true = none := by decide

/-- Claim C6 (amended): validation-first rejection holds for the
single-value helper `parse_single_date` — every string rejected by
`validate_date_string` is mapped to null with no parsing attempted — but
not for the column parsing `parse_dates` applies in the pipeline, which
calls pandas `to_datetime` directly. -/
theorem c6_validation_first_amended (s : String)
    (h : validate_date_string s = false) :
    parse_single_date (Cell.str s) true = none := by
  unfold parse_single_date
  dsimp only
  have hv : validate_date_string (pyStrip s) = false := by
    unfold validate_date_string at h ⊢
    have hdata : (pyStrip s).data = stripChars s.data := rfl
    rw [hdata, stripChars_idem]
    exact h
  simp [hv]

/-- Claim C6 witness: the helper rejects a non-date-shaped string. -/
theorem c6_validation_first_witness :
    validate_date_string "not a date" = false ∧
    parse_single_date (Cell.str "not a date") true = none :=
  ⟨by decide, c6_validation_first_amended "not a date" (by decide)⟩

/-- Claim C9 (code bug): `fill_default_values` alone would replace the
missing assignee with the configured placeholder, exactly as the
specification states; but in `pipeline.main` the earlier
`clean_string_columns` step has already turned the missing value of the
object-dtype assignee column into the literal string `"nan"`, so the
pipeline's output carries `"nan"` instead of the placeholder. -/
theorem c9_assignee_default_code_bug :
    (processPipeline c9Input).getCell "Atribuído" 1 = some (Cell.str "nan") ∧
    (fill_default_values c9Input).getCell "Atribuído" 1 =
      some (Cell.str DEFAULT_ASSIGNEE) ∧
    Cell.str "nan" ≠ Cell.str DEFAULT_ASSIGNEE := by decide

/-! ## Claim C7: the critical-date-loss check -/

theorem dateLossIssue_iff (din dout : DataFrame) (p : String × List String) :
    dateLossIssue din dout p = true ↔
      ∃ ic, p.2.find? din.hasCol = some ic ∧
        dout.hasCol p.1 = true ∧
        0 < countNotna (din.getColD ic) ∧
        100 * ((countNotna (din.getColD ic) : Int) -
            (countNotna (dout.getColD p.1) : Int)) >
          (if p.1 = "Data de entrega" then 5 else 20) *
            (countNotna (din.getColD ic) : Int) := by
  unfold dateLossIssue
  rcases hf : p.2.find? din.hasCol with _ | ic
  · simp
  · dsimp only
    rcases hcol : dout.hasCol p.1 with _ | _
    · simp
    · by_cases hiv : 0 < countNotna (din.getColD ic)
      · rw [if_pos hiv]
        simp only [Bool.not_true, Bool.false_eq_true, if_false]
        constructor
        · intro hl
          by_cases h3 : p.1 = "Data de entrega" ∧
              100 * ((countNotna (din.getColD ic) : Int) -
                (countNotna (dout.getColD p.1) : Int)) >
                5 * (countNotna (din.getColD ic) : Int)
          · refine ⟨ic, rfl, by trivial, hiv, ?_⟩
            rw [if_pos h3.1]
            exact h3.2
          · rw [if_neg h3] at hl
            by_cases h4 : 100 * ((countNotna (din.getColD ic) : Int) -
                (countNotna (dout.getColD p.1) : Int)) >
                20 * (countNotna (din.getColD ic) : Int)
            · refine ⟨ic, rfl, by trivial, hiv, ?_⟩
              by_cases hdue : p.1 = "Data de entrega"
              · rw [if_pos hdue]
                omega
              · rw [if_neg hdue]
                exact h4
            · rw [if_neg h4] at hl
              simp at hl
        · rintro ⟨ic', hic, _, _, hthr⟩
          have hii : ic' = ic := (Option.some_inj.mp hic).symm
          rw [hii] at hthr
          by_cases hdue : p.1 = "Data de entrega"
          · rw [if_pos hdue] at hthr
            rw [if_pos ⟨hdue, hthr⟩]
          · rw [if_neg hdue] at hthr
            by_cases h3 : p.1 = "Data de entrega" ∧
                100 * ((countNotna (din.getColD ic) : Int) -
                  (countNotna (dout.getColD p.1) : Int)) >
                  5 * (countNotna (din.getColD ic) : Int)
            · rw [if_pos h3]
            · rw [if_neg h3, if_pos hthr]
      · rw [if_neg hiv]
        simp only [Bool.not_true, Bool.false_eq_true, if_false]
        constructor
        · intro hl
          simp at hl
        · rintro ⟨ic', hic, _, hiv', _⟩
          have hii : ic' = ic := (Option.some_inj.mp hic).symm
          rw [hii] at hiv'
          exact absurd hiv' hiv

/-- Claim C7: the critical-date-loss check fails with severity `ERROR`
exactly when some tracked date column (matched to its input column) has,
over the non-null counts, a loss strictly above its threshold — 5% for the
due-date column, 20% for the other tracked columns (the float comparison
`(iv - ov) / iv * 100 > thr` is stated exactly as
`100 * (iv - ov) > thr * iv` over the integers) — and losses at or below
the threshold pass; in particular an artificial 10% drop of due dates
(10 → 9 non-null) yields a failed result with severity `ERROR`. -/
theorem c7_critical_date_loss :
    (∀ din dout : DataFrame,
      ((validate_critical_dates din dout).passed = false ∧
       (validate_critical_dates din dout).severity = "ERROR") ↔
        ∃ p ∈ trackedDateColumns, ∃ ic,
          p.2.find? din.hasCol = some ic ∧
          dout.hasCol p.1 = true ∧
          0 < countNotna (din.getColD ic) ∧
          100 * ((countNotna (din.getColD ic) : Int) -
              (countNotna (dout.getColD p.1) : Int)) >
            (if p.1 = "Data de entrega" then 5 else 20) *
              (countNotna (din.getColD ic) : Int)) ∧
    ((validate_critical_dates c7Input c7Output).passed = false ∧
     (validate_critical_dates c7Input c7Output).severity = "ERROR") := by
  refine ⟨fun din dout => ?_, by decide⟩
  unfold validate_critical_dates
  by_cases hiss : trackedDateColumns.filter (dateLossIssue din dout) = []
  · rw [if_neg (by simp [hiss])]
    constructor
    · rintro ⟨hp, _⟩
      simp at hp
    · rintro ⟨p, hmem, hcond⟩
      exfalso
      have hissue : dateLossIssue din dout p = true :=
        (dateLossIssue_iff din dout p).mpr hcond
      have hpf : p ∈ trackedDateColumns.filter (dateLossIssue din dout) :=
        List.mem_filter.mpr ⟨hmem, hissue⟩
      rw [hiss] at hpf
      simp at hpf
  · rw [if_pos (by simp [hiss])]
    constructor
    · intro _
      obtain ⟨p, hp⟩ := List.exists_mem_of_ne_nil _ hiss
      obtain ⟨hmem, hissue⟩ := List.mem_filter.mp hp
      obtain ⟨ic, hic⟩ := (dateLossIssue_iff din dout p).mp hissue
      exact ⟨p, hmem, ic, hic⟩
    · intro _
      exact ⟨rfl, rfl⟩

/-- Claim C7 witness: the general characterization applied to the
concrete 10%-drop pair. -/
theorem c7_critical_date_loss_witness :
    (validate_critical_dates c7Input c7Output).passed = false ∧
    (validate_critical_dates c7Input c7Output).severity = "ERROR" :=
  (c7_critical_date_loss.1 c7Input c7Output).mpr
    ⟨(("Data de entrega",
        ["Data de conclusão", "Data de entrega", "Due Date"]) :
        String × List String),
     by decide,
     ⟨"Data de entrega", by decide, by decide, by decide, by decide⟩⟩

/-! ## Claim C8: overall pass/fail semantics -/

theorem sev_row_count_ne_critical (din dout : DataFrame) :
    (validate_row_count din dout).severity ≠ "CRITICAL" := by
  unfold validate_row_count
  split_ifs <;> decide

theorem sev_unique_ids_ne_critical (din dout : DataFrame) :
    (validate_unique_ids din dout).severity ≠ "CRITICAL" := by
  unfold validate_unique_ids
  rcases hf : idColumnCandidates.find? din.hasCol with _ | id_col
  · dsimp only
    decide
  · dsimp only
    split_ifs <;> decide

theorem sev_critical_dates_ne_critical (din dout : DataFrame) :
    (validate_critical_dates din dout).severity ≠ "CRITICAL" := by
  unfold validate_critical_dates
  dsimp only
  split_ifs <;> decide

theorem sev_bucket_rules_ne_critical (dout : DataFrame) :
    (validate_bucket_rules dout).severity ≠ "CRITICAL" := by
  unfold validate_bucket_rules
  dsimp only
  split_ifs <;> decide

theorem sev_consistency_ne_critical (cy : Int) (dout : DataFrame) :
    (validate_data_consistency cy dout).severity ≠ "CRITICAL" := by
  unfold validate_data_consistency
  dsimp only
  split_ifs <;> decide

theorem sev_consistency_ne_error (cy : Int) (dout : DataFrame) :
    (validate_data_consistency cy dout).severity ≠ "ERROR" := by
  unfold validate_data_consistency
  dsimp only
  split_ifs <;> decide

/-- Claim C8: the validator's overall result is true exactly when no
check in the reported results list is a failed result with `ERROR`
severity; the cross-field consistency check is always reported in the
results and its severity is never `ERROR` (it fails only as `WARNING`),
so it can never flip the overall result. -/
theorem c8_overall_pass_semantics (cy : Int) (din dout : DataFrame) :
    ((run_all_validations cy din dout).2 = true ↔
      ∀ r ∈ (run_all_validations cy din dout).1,
        r.passed = true ∨ r.severity ≠ "ERROR") ∧
    validate_data_consistency cy dout ∈ (run_all_validations cy din dout).1 ∧
    (validate_data_consistency cy dout).severity ≠ "ERROR" := by
  have hnc : ∀ r ∈ (run_all_validations cy din dout).1,
      r.severity ≠ "CRITICAL" := by
    intro r hr
    simp only [run_all_validations, List.mem_cons, List.not_mem_nil,
      or_false] at hr
    rcases hr with h | h | h | h | h <;> rw [h]
    · exact sev_row_count_ne_critical din dout
    · exact sev_unique_ids_ne_critical din dout
    · exact sev_critical_dates_ne_critical din dout
    · exact sev_bucket_rules_ne_critical dout
    · exact sev_consistency_ne_critical cy dout
  refine ⟨?_, ?_, sev_consistency_ne_error cy dout⟩
  · show (List.filter _ (run_all_validations cy din dout).1).isEmpty = true ↔ _
    rw [List.isEmpty_iff, List.filter_eq_nil_iff]
    constructor
    · intro hall r hr
      have hnr := hall r hr
      by_cases hp : r.passed = true
      · exact Or.inl hp
      · right
        intro hsev
        apply hnr
        simp [hp, hsev]
    · intro hall r hr
      rcases hall r hr with hp | hs
      · simp [hp]
      · have hc := hnc r hr
        simp only [Bool.and_eq_true, Bool.or_eq_true, beq_iff_eq]
        rintro ⟨-, he | hcc⟩
        · exact hs he
        · exact hc hcc
  · simp [run_all_validations]

/-- Claim C8 witness: the semantics applied to a healthy concrete pair —
every reported result passes or is non-`ERROR`, so the overall result is
true. -/
theorem c8_overall_pass_semantics_witness :
    (run_all_validations 2025 c8wInput c8wOutput).2 = true :=
  ((c8_overall_pass_semantics 2025 c8wInput c8wOutput).1).mpr (by decide)
